import Mathlib

/-!
Shallow embedding of the rustyjs library (src/option.ts, src/result.ts,
src/iterator.ts) and proofs about the claims of its specification.

Conventions of the embedding:
* A method that can `throw` is modelled as returning `Except String α`,
  where the `String` is the message of the thrown JS `Error`.
* A JS value that can be `undefined` (out-of-bounds array access) is
  modelled as `Option α`, with `Option.none` standing for `undefined`.
* JS strict equality `===` on caller-supplied values is modelled by a
  caller-supplied boolean relation; `JsObj` below instantiates it with
  reference identity to model object values.
* The mutable cursor of `Iterator` is modelled by explicit state passing:
  each mutating method consumes an `Iter` and returns the updated one.
-/

namespace RustyJS

/-- The two variants of `Option<T>` from src/option.ts (`class Some` /
`class None`). `Option'` because `Option` is taken by Lean's core. -/
inductive Option' (α : Type) where
  | Some : α → Option' α
  | None : Option' α
deriving DecidableEq

/-- `Some.isSome` returns `true`, `None.isSome` returns `false`. -/
def Option'.isSomeB : Option' α → Bool
  | .Some _ => true
  | .None => false

/-- `Some.isNone` returns `false`, `None.isNone` returns `true`. -/
def Option'.isNoneB : Option' α → Bool
  | .Some _ => false
  | .None => true

/-- `unwrap`: returns the wrapped value on `Some`, throws on `None`. -/
def Option'.unwrap : Option' α → Except String α
  | .Some v => .ok v
  | .None => .error "Called unwrap on a None value."

/-- `unwrapOrDefault(defaultValue)`. -/
def Option'.unwrapOrDefault : Option' α → α → α
  | .Some v, _ => v
  | .None, d => d

/-- `unwrapOrElse(fn)`: `fn` is a thunk, invoked only on the `None` path. -/
def Option'.unwrapOrElse : Option' α → (Unit → α) → α
  | .Some v, _ => v
  | .None, fn => fn ()

/-- `expect(message)`: like `unwrap` but throws `message` on `None`. -/
def Option'.expect : Option' α → String → Except String α
  | .Some v, _ => .ok v
  | .None, message => .error message

/-- `get`: wrapped value or `null` (modelled as `Option.none`). -/
def Option'.get : Option' α → Option α
  | .Some v => Option.some v
  | .None => Option.none

/-- `map(fn)`. -/
def Option'.map (fn : α → β) : Option' α → Option' β
  | .Some v => .Some (fn v)
  | .None => .None

/-- `flatMap(fn)`. -/
def Option'.flatMap (fn : α → Option' β) : Option' α → Option' β
  | .Some v => fn v
  | .None => .None

/-- `andThen(fn)`: same body as `flatMap` in the source. -/
def Option'.andThen (fn : α → Option' β) : Option' α → Option' β
  | .Some v => fn v
  | .None => .None

/-- `filter(predicate)`. -/
def Option'.filter (predicate : α → Bool) : Option' α → Option' α
  | .Some v => if predicate v then .Some v else .None
  | .None => .None

/-- `equals(other)`: `Some.equals` is
`other.isSome() && this.value === other.unwrap()`; `None.equals` is
`other.isNone()`. JS strict equality `===` on the wrapped values is the
caller-supplied relation `seq`. -/
def Option'.equals (seq : α → α → Bool) : Option' α → Option' α → Bool
  | .Some a, .Some b => seq a b
  | .Some _, .None => false
  | .None, other => other.isNoneB

/-- `match(onSome, onNone)`. -/
def Option'.matchWith (onSome : α → β) (onNone : Unit → β) : Option' α → β
  | .Some v => onSome v
  | .None => onNone ()

/-- A field value of the object produced by `toJSON`: either a string
literal of the source (the `type` tag) or a caller-supplied value. -/
inductive JField (α : Type) where
  | str : String → JField α
  | val : α → JField α
deriving DecidableEq

/-- `toJSON`: `Some` → `{ type: "Some", value: this.value }`,
`None` → `{ type: "None" }`, modelled as ordered key/field lists. -/
def Option'.toJSON : Option' α → List (String × JField α)
  | .Some v => [("type", .str "Some"), ("value", .val v)]
  | .None => [("type", .str "None")]

/-- A JS object value: `ref` is its identity (what `===` compares),
`fields` its structural content (which `===` ignores). -/
structure JsObj where
  ref : Nat
  fields : List (String × Int)
deriving DecidableEq

/-- JS `===` on object values: reference identity. -/
def jsStrictEqObj (a b : JsObj) : Bool := a.ref == b.ref

/-- JS `===` on primitive integer values: value equality. -/
def jsStrictEqInt (a b : Int) : Bool := a == b

/-- The two variants of `Result<T, E>` from src/result.ts
(`class Ok` / `class Err`). -/
inductive Result' (α ε : Type) where
  | Ok : α → Result' α ε
  | Err : ε → Result' α ε
deriving DecidableEq

/-- `Ok.isOk` returns `true`, `Err.isOk` returns `false`. -/
def Result'.isOkB : Result' α ε → Bool
  | .Ok _ => true
  | .Err _ => false

/-- `Ok.isErr` returns `false`, `Err.isErr` returns `true`. -/
def Result'.isErrB : Result' α ε → Bool
  | .Ok _ => false
  | .Err _ => true

/-- `unwrap`: the value on `Ok`, throws on `Err`. -/
def Result'.unwrap : Result' α ε → Except String α
  | .Ok v => .ok v
  | .Err _ => .error "Called unwrap on an error."

/-- `unwrapOrDefault(defaultValue)`. -/
def Result'.unwrapOrDefault : Result' α ε → α → α
  | .Ok v, _ => v
  | .Err _, d => d

/-- `unwrapOrElse(fn)`: `fn` receives the error, invoked only on `Err`. -/
def Result'.unwrapOrElse : Result' α ε → (ε → α) → α
  | .Ok v, _ => v
  | .Err e, fn => fn e

/-- `expect(message)`: the value on `Ok`, throws `message` on `Err`. -/
def Result'.expect : Result' α ε → String → Except String α
  | .Ok v, _ => .ok v
  | .Err _, message => .error message

/-- `getErr`: `Ok.getErr` throws, `Err.getErr` returns the error. -/
def Result'.getErr : Result' α ε → Except String ε
  | .Ok _ => .error "Called getErr on an Ok value."
  | .Err e => .ok e

/-- `map(fn)`: `Ok` branch wraps `fn(value)`; the `Err` branch is
`Result.Err(this.getErr())`, i.e. a new `Err` carrying the same error. -/
def Result'.map (fn : α → β) : Result' α ε → Result' β ε
  | .Ok v => .Ok (fn v)
  | .Err e => .Err e

/-- `flatMap(fn)`: `Ok` branch returns `fn(value)`; `Err` branch is
`Result.Err(this.getErr())` as in `map`. -/
def Result'.flatMap (fn : α → Result' β ε) : Result' α ε → Result' β ε
  | .Ok v => fn v
  | .Err e => .Err e

/-- The `Iterator<T>` class of src/iterator.ts: a backing array `items`
and a mutable cursor `index` (`private index = 0`). `Iter` because
`Iterator` is taken by Lean's core. -/
structure Iter (α : Type) where
  items : List α
  index : Nat
deriving DecidableEq

/-- `Iterator.from(items)`: `new Iterator(items)`, cursor 0. -/
def Iter.fromList (items : List α) : Iter α := ⟨items, 0⟩

/-- The list `[s, s+1, ..., e-1]` built by the loop
`for (let i = start; i < end; i++) items.push(i)` of `Iterator.range`. -/
def rangeItems (s e : Int) : List Int :=
  List.map (fun i : Nat => s + Int.ofNat i) (List.range (e - s).toNat)

/-- `Iterator.range(start, end?)`: when `end` is `undefined`
(`Option.none`), the single argument is the end and the start is 0. -/
def Iter.range (start : Int) : Option Int → Iter Int
  | Option.none => ⟨rangeItems 0 start, 0⟩
  | Option.some e => ⟨rangeItems start e, 0⟩

/-- `hasNext()`: `this.index < this.items.length`. -/
def Iter.hasNext (it : Iter α) : Bool := it.index < it.items.length

/-- `next()`: `this.items[this.index++]` — returns the item at the
cursor (`undefined`, i.e. `Option.none`, when out of range) and
increments the cursor unconditionally. -/
def Iter.next (it : Iter α) : Option α × Iter α :=
  (it.items[it.index]?, ⟨it.items, it.index + 1⟩)

/-- `peek()`: `this.items[this.index]`, cursor unchanged. -/
def Iter.peek (it : Iter α) : Option α := it.items[it.index]?

/-- `reset()`: sets the cursor back to 0. -/
def Iter.reset (it : Iter α) : Iter α := ⟨it.items, 0⟩

/-- `map(fn)`: `new Iterator(this.items.map(fn))`. -/
def Iter.map (fn : α → β) (it : Iter α) : Iter β := ⟨it.items.map fn, 0⟩

/-- `filter(predicate)`: `new Iterator(this.items.filter(predicate))`. -/
def Iter.filter (predicate : α → Bool) (it : Iter α) : Iter α :=
  ⟨it.items.filter predicate, 0⟩

/-- `find(predicate)`: first matching item, or `null` (`Option.none`). -/
def Iter.find (predicate : α → Bool) (it : Iter α) : Option α :=
  it.items.find? predicate

/-- `collect()` without an argument: returns `this.items`. -/
def Iter.collect (it : Iter α) : List α := it.items

/-- `collect(fn)` with a mapping argument: `this.items.map(fn)`. -/
def Iter.collectMap (fn : α → β) (it : Iter α) : List β := it.items.map fn

/-- `reduce(fn, initialValue)`: left fold over `this.items`. -/
def Iter.reduce (fn : β → α → β) (initialValue : β) (it : Iter α) : β :=
  it.items.foldl fn initialValue

/-- `count()` without a predicate: `this.items.length`. -/
def Iter.countAll (it : Iter α) : Nat := it.items.length

/-- `count(predicate)`: `this.items.filter(predicate).length`. -/
def Iter.countP (predicate : α → Bool) (it : Iter α) : Nat :=
  (it.items.filter predicate).length

/-- `any(predicate)`: `this.items.some(predicate)`. -/
def Iter.any (predicate : α → Bool) (it : Iter α) : Bool :=
  it.items.any predicate

/-- `all(predicate)`: `this.items.every(predicate)`. -/
def Iter.all (predicate : α → Bool) (it : Iter α) : Bool :=
  it.items.all predicate

/-- `chain(fn)`: concatenates `fn(value).collect(id)` for each item. -/
def Iter.chain (fn : α → Iter β) (it : Iter α) : Iter β :=
  ⟨it.items.foldl (fun acc v => acc ++ (fn v).items) [], 0⟩

/-- `skip(n)`: `new Iterator(this.items.slice(n))` (`n ≥ 0`). -/
def Iter.skip (n : Nat) (it : Iter α) : Iter α := ⟨it.items.drop n, 0⟩

/-- `take(n)`: `new Iterator(this.items.slice(0, n))` (`n ≥ 0`). -/
def Iter.take (n : Nat) (it : Iter α) : Iter α := ⟨it.items.take n, 0⟩

/-- The final value of `index` after the loop
`let index = 0; while (predicate(this.items[index])) index++;` shared by
`skipWhile`, `takeWhile`, `collectWhile`. The predicate receives
`undefined` (`Option.none`) once `index` passes the end of the list;
if it accepts every element and also accepts `undefined`, the JS loop
never terminates, which is modelled as `Option.none`. -/
def scanIdx (predicate : Option α → Bool) : List α → Option Nat
  | [] => if predicate Option.none then Option.none else Option.some 0
  | x :: xs =>
    if predicate (Option.some x) then (scanIdx predicate xs).map (· + 1)
    else Option.some 0

/-- `skipWhile(predicate)`: `new Iterator(this.items.slice(index))` for
the scan's final `index`; `Option.none` when the scan diverges. -/
def Iter.skipWhile (predicate : Option α → Bool) (it : Iter α) :
    Option (Iter α) :=
  (scanIdx predicate it.items).map (fun i => ⟨it.items.drop i, 0⟩)

/-- `takeWhile(predicate)`: `new Iterator(this.items.slice(0, index))`
for the scan's final `index`; `Option.none` when the scan diverges. -/
def Iter.takeWhile (predicate : Option α → Bool) (it : Iter α) :
    Option (Iter α) :=
  (scanIdx predicate it.items).map (fun i => ⟨it.items.take i, 0⟩)

/-- `enumerate()`: pairs `[index, value]`. -/
def Iter.enumerate (it : Iter α) : Iter (Nat × α) :=
  ⟨it.items.mapIdx (fun i v => (i, v)), 0⟩

/-- `zip(other)`: `this.items.map((value, index) => [value,
other.items[index]])` — one pair per item of the receiver; the second
component is `undefined` (`Option.none`) past the other's length. -/
def Iter.zip (it : Iter α) (other : Iter β) : Iter (α × Option β) :=
  ⟨it.items.mapIdx (fun i v => (v, other.items[i]?)), 0⟩

/-- `chainWith(other)`: a forEach/push loop building the same pair list
as `zip`. -/
def Iter.chainWith (it : Iter α) (other : Iter β) : Iter (α × Option β) :=
  ⟨it.items.mapIdx (fun i v => (v, other.items[i]?)), 0⟩

/-- `collectInto(other, fn)`: `fn(value, other.items[index])` per item
of the receiver, returned as a plain array. -/
def Iter.collectInto (it : Iter α) (other : Iter β)
    (fn : α → Option β → γ) : List γ :=
  it.items.mapIdx (fun i v => fn v other.items[i]?)

/-- `collectWith(other)`: the same pair list as `zip`, as an array. -/
def Iter.collectWith (it : Iter α) (other : Iter β) : List (α × Option β) :=
  it.items.mapIdx (fun i v => (v, other.items[i]?))

/-- Lifts an element predicate to the `Option`-typed argument the scan
loop actually passes: JS predicates such as `x => x < 3` are falsy on
`undefined`, hence `false` on `Option.none`. -/
def liftPred (q : α → Bool) : Option α → Bool
  | Option.some x => q x
  | Option.none => false

/-! Helper lemmas shared by the claim theorems. -/

lemma getElem?_mapIdx (f : Nat → α → β) (l : List α) (i : Nat) :
    (l.mapIdx f)[i]? = (l[i]?).map (f i) := by
  induction l generalizing f i with
  | nil => simp
  | cons x xs ih =>
    cases i with
    | zero => simp [List.mapIdx_cons]
    | succ j => simp [List.mapIdx_cons, ih]

lemma map_mapIdx (f : Nat → α → β) (g : β → γ) (l : List α) :
    (l.mapIdx f).map g = l.mapIdx (fun i a => g (f i a)) := by
  induction l generalizing f with
  | nil => simp
  | cons x xs ih => simp [List.mapIdx_cons, ih]

lemma scanIdx_liftPred (q : α → Bool) (l : List α) :
    scanIdx (liftPred q) l = Option.some ((l.takeWhile q).length) := by
  induction l with
  | nil => simp [scanIdx, liftPred]
  | cons x xs ih =>
    cases hq : q x <;>
      simp [scanIdx, liftPred, hq, ih, List.takeWhile_cons]

lemma drop_length_takeWhile (q : α → Bool) (l : List α) :
    l.drop ((l.takeWhile q).length) = l.dropWhile q := by
  induction l with
  | nil => rfl
  | cons x xs ih =>
    cases hq : q x <;> simp [List.takeWhile_cons, List.dropWhile_cons, hq, ih]

/-! Claim theorems. -/

/-- C1, counterexample: the claim says the serialized `type` field of a
present container is the string `"Present"` and of the absent container
`"Absent"`; the source's `toJSON` emits `"Some"` and `"None"`. -/
theorem toJSON_tag_is_Some_not_Present :
    (Option'.toJSON (Option'.Some (0 : Int))).lookup "type"
      = Option.some (JField.str "Some")
    ∧ ((Option'.toJSON (Option'.Some (0 : Int))).lookup "type"
        == Option.some (JField.str "Present")) = false
    ∧ (Option'.toJSON (Option'.None : Option' Int)).lookup "type"
      = Option.some (JField.str "None")
    ∧ ((Option'.toJSON (Option'.None : Option' Int)).lookup "type"
        == Option.some (JField.str "Absent")) = false := by
  refine ⟨?_, ?_, ?_, ?_⟩ <;> decide

/-- C1, amended: serializing the present container of `v` yields the
tagged object `{ type: "Some", value: v }` (the `value` field holds `v`
exactly), and serializing the absent container yields `{ type: "None" }`
with no `value` field; the tag strings are `"Some"`/`"None"`, not
`"Present"`/`"Absent"`. -/
theorem toJSON_tagged_external_representation {α : Type} (v : α) :
    Option'.toJSON (Option'.Some v)
      = [("type", JField.str "Some"), ("value", JField.val v)]
    ∧ (Option'.toJSON (Option'.Some v)).lookup "value"
      = Option.some (JField.val v)
    ∧ Option'.toJSON (Option'.None : Option' α) = [("type", JField.str "None")]
    ∧ (Option'.toJSON (Option'.None : Option' α)).lookup "value"
      = Option.none := by
  refine ⟨rfl, ?_, rfl, ?_⟩ <;> simp [Option'.toJSON, List.lookup]

/-- C4: `unwrap` on the present container returns the wrapped value;
`unwrap` on the absent container throws the generic empty-value error
(the spec's `EmptyValueError`); `expect(message)` on the absent container
throws exactly the caller-supplied message instead of the generic one. -/
theorem unwrap_expect_option_contract {α : Type} (v : α) (m : String) :
    Option'.unwrap (Option'.Some v) = Except.ok v
    ∧ Option'.unwrap (Option'.None : Option' α)
      = Except.error "Called unwrap on a None value."
    ∧ Option'.expect (Option'.None : Option' α) m = Except.error m
    ∧ Option'.expect (Option'.Some v) m = Except.ok v :=
  ⟨rfl, rfl, rfl, rfl⟩

/-- C5: a success result satisfies `isOk` and its `getErr` throws the
invalid-state error (the spec's `InvalidStateError`); a failure result's
`getErr` returns the carried error, and its `unwrap` throws the
empty-value error (the spec's `EmptyValueError`). -/
theorem result_accessor_contract {α ε : Type} (v : α) (e : ε) :
    (Result'.Ok v : Result' α ε).isOkB = true
    ∧ Result'.getErr (Result'.Ok v : Result' α ε)
      = Except.error "Called getErr on an Ok value."
    ∧ Result'.getErr (Result'.Err e : Result' α ε) = Except.ok e
    ∧ Result'.unwrap (Result'.Err e : Result' α ε)
      = Except.error "Called unwrap on an error." :=
  ⟨rfl, rfl, rfl, rfl⟩

/-- C6: `map fn` on a failure result is the failure carrying the very
same error, and the output does not depend on `fn` at all (the function
is never invoked); `flatMap` likewise short-circuits on a failure. -/
theorem err_map_flatMap_short_circuit {α β ε : Type} (e : ε) (fn : α → β)
    (g : α → Result' β ε) :
    Result'.map fn (Result'.Err e : Result' α ε) = (Result'.Err e : Result' β ε)
    ∧ (∀ fn₂ : α → β,
        Result'.map fn (Result'.Err e : Result' α ε) = Result'.map fn₂ (Result'.Err e))
    ∧ Result'.flatMap g (Result'.Err e : Result' α ε)
      = (Result'.Err e : Result' β ε)
    ∧ (∀ g₂ : α → Result' β ε,
        Result'.flatMap g (Result'.Err e : Result' α ε)
          = Result'.flatMap g₂ (Result'.Err e)) :=
  ⟨rfl, fun _ => rfl, rfl, fun _ => rfl⟩

/-- C10: `equals` on two present containers applies JS strict equality
`===` (the relation `seq`) to the wrapped values and nothing else — in
particular, with objects compared by reference identity, two present
containers wrapping distinct but structurally equal objects are unequal,
while equal primitives compare equal; `equals` on the absent container
returns `isNone` of the other, hence `true` for any absent container. -/
theorem equals_strict_identity {α : Type} (seq : α → α → Bool) (a b : α)
    (o : Option' α) :
    Option'.equals seq (Option'.Some a) (Option'.Some b) = seq a b
    ∧ Option'.equals seq (Option'.Some a) Option'.None = false
    ∧ Option'.equals seq Option'.None o = o.isNoneB
    ∧ Option'.equals seq Option'.None Option'.None = true
    ∧ Option'.equals jsStrictEqInt (Option'.Some 3) (Option'.Some 3) = true
    ∧ (JsObj.mk 0 [("a", 1)]).fields = (JsObj.mk 1 [("a", 1)]).fields
    ∧ Option'.equals jsStrictEqObj (Option'.Some (JsObj.mk 0 [("a", 1)]))
        (Option'.Some (JsObj.mk 1 [("a", 1)])) = false := by
  refine ⟨rfl, rfl, rfl, rfl, ?_, ?_, ?_⟩ <;> decide

/-- C2, counterexample: the claim says the cursor is always in
`[0, length]` after any sequence of operations, but `next()` increments
the cursor unconditionally: calling `next` on an empty sequence leaves
the cursor at 1 while the length is 0. -/
theorem cursor_exceeds_length_after_next_on_empty :
    ((Iter.fromList ([] : List Int)).next).2.index = 1
    ∧ ((Iter.fromList ([] : List Int)).next).2.items.length = 0
    ∧ decide (((Iter.fromList ([] : List Int)).next).2.index
        ≤ ((Iter.fromList ([] : List Int)).next).2.items.length) = false := by
  refine ⟨rfl, rfl, ?_⟩; decide

/-- C2, amended: the cursor never goes below 0 and stays in
`[0, length]` as long as `next` is called only when `hasNext` holds, but
`next` past the end pushes the cursor beyond the length; every
transformation operation (`map`, `filter`, `skip`, `take`, `skipWhile`,
`takeWhile`, `enumerate`, `zip`, `chainWith`) returns a new sequence
whose cursor is 0 and whose backing list is freshly computed from the
source's, which is left unchanged (all these methods are built from
non-mutating array operations, which the pure embedding reflects). -/
theorem cursor_bound_and_fresh_transformations {α β : Type} (it : Iter α)
    (fn : α → β) (p : α → Bool) (n : Nat) (po : Option α → Bool)
    (other : Iter β) :
    (it.hasNext = true → (it.next).2.index ≤ (it.next).2.items.length)
    ∧ (it.reset).index = 0
    ∧ (Iter.map fn it).index = 0
    ∧ (Iter.filter p it).index = 0
    ∧ (Iter.skip n it).index = 0
    ∧ (Iter.take n it).index = 0
    ∧ (Iter.enumerate it).index = 0
    ∧ (Iter.zip it other).index = 0
    ∧ (Iter.chainWith it other).index = 0
    ∧ (∀ r, Iter.skipWhile po it = Option.some r → r.index = 0)
    ∧ (∀ r, Iter.takeWhile po it = Option.some r → r.index = 0)
    ∧ (Iter.map fn it).items = it.items.map fn := by
  refine ⟨?_, rfl, rfl, rfl, rfl, rfl, rfl, rfl, rfl, ?_, ?_, rfl⟩
  · intro h
    simp only [Iter.hasNext, decide_eq_true_eq] at h
    simpa [Iter.next] using h
  · intro r h
    cases hs : scanIdx po it.items with
    | none => simp [Iter.skipWhile, hs] at h
    | some i =>
      simp [Iter.skipWhile, hs] at h
      rw [← h]
  · intro r h
    cases hs : scanIdx po it.items with
    | none => simp [Iter.takeWhile, hs] at h
    | some i =>
      simp [Iter.takeWhile, hs] at h
      rw [← h]

/-- C2, witness for the amended theorem at a concrete input. -/
theorem cursor_bound_witness :
    ((Iter.fromList [(0 : Int)]).next).2.index
      ≤ ((Iter.fromList [(0 : Int)]).next).2.items.length :=
  (cursor_bound_and_fresh_transformations (Iter.fromList [(0 : Int)]) id
    (fun _ => true) 0 (fun _ => false) (Iter.fromList [(0 : Int)])).1
    (by decide)

/-- C3, counterexample: the claim says `zip` produces exactly
`min(length first, length second)` pairs, but the source maps over the
first sequence's items, so `[1,2].zip(["a"])` yields 2 pairs (the second
one with an `undefined` component), not `min 2 1 = 1`. -/
theorem zip_pair_count_not_min :
    ((Iter.fromList [(1 : Int), 2]).zip
        (Iter.fromList (["a"] : List String))).items.length = 2
    ∧ min (Iter.fromList [(1 : Int), 2]).items.length
        (Iter.fromList (["a"] : List String)).items.length = 1
    ∧ (((Iter.fromList [(1 : Int), 2]).zip
          (Iter.fromList (["a"] : List String))).items.length
        == min (Iter.fromList [(1 : Int), 2]).items.length
          (Iter.fromList (["a"] : List String)).items.length) = false := by
  refine ⟨rfl, rfl, ?_⟩; decide

/-- C3, amended: `zip` (and likewise `chainWith`, `collectInto`,
`collectWith`) produces exactly one pair per item of the FIRST sequence,
the i-th pair being the first's i-th item together with the second's
i-th item, or `undefined` (`Option.none`) past the second's length — so
the pair count is `min` of the lengths exactly when the first sequence
is not longer than the second; `zip` is total (never fails) for any pair
of input sequences, and `[1,2].zip(["a","b"]).collect()` pairs the items
index-wise as the spec's example states. -/
theorem zip_pairs_first_length_indexwise {α β γ : Type} (it : Iter α)
    (other : Iter β) (fn : α → Option β → γ) :
    (it.zip other).items.length = it.items.length
    ∧ (∀ i : Nat, (it.zip other).items[i]?
        = (it.items[i]?).map (fun v => (v, other.items[i]?)))
    ∧ (it.items.length ≤ other.items.length →
        (it.zip other).items.length
          = min it.items.length other.items.length)
    ∧ it.chainWith other = it.zip other
    ∧ it.collectWith other = (it.zip other).items
    ∧ it.collectInto other fn
      = (it.zip other).items.map (fun vp => fn vp.1 vp.2)
    ∧ ((Iter.fromList [(1 : Int), 2]).zip
        (Iter.fromList ["a", "b"])).collect
      = [(1, Option.some "a"), (2, Option.some "b")] := by
  refine ⟨?_, ?_, ?_, rfl, ?_, ?_, ?_⟩
  · simp [Iter.zip]
  · intro i
    simp [Iter.zip, getElem?_mapIdx]
  · intro h
    simp [Iter.zip, Nat.min_eq_left h]
  · rfl
  · simp [Iter.collectInto, Iter.zip, map_mapIdx]
  · decide

/-- C3, witness for the amended theorem at a concrete input. -/
theorem zip_pairs_witness :
    ((Iter.fromList [(1 : Int), 2]).zip
        (Iter.fromList ["a", "b"])).items.length
      = min (Iter.fromList [(1 : Int), 2]).items.length
          (Iter.fromList (["a", "b"] : List String)).items.length :=
  (zip_pairs_first_length_indexwise (Iter.fromList [(1 : Int), 2])
      (Iter.fromList ["a", "b"]) (fun v o => (v, o))).2.2.1 (by decide)

/-- C7: for any element predicate that is falsy on `undefined` (as the
spec's example `x => x < 3` is), `skipWhile` terminates and drops exactly
the longest prefix of elements passing the predicate, i.e. it stops at
the first failing element; when the very first element already fails,
nothing is skipped and the whole sequence is returned; in particular
`[1,2,3,4].skipWhile(x => x < 3).collect()` is `[3,4]`. -/
theorem skipWhile_stops_at_first_failure {α : Type} (q : α → Bool)
    (items : List α) :
    Iter.skipWhile (liftPred q) (Iter.fromList items)
      = Option.some (Iter.fromList (items.dropWhile q))
    ∧ (∀ (x : α) (xs : List α), q x = false →
        Iter.skipWhile (liftPred q) (Iter.fromList (x :: xs))
          = Option.some (Iter.fromList (x :: xs)))
    ∧ Iter.skipWhile (liftPred (fun n : Int => decide (n < 3)))
        (Iter.fromList [1, 2, 3, 4])
      = Option.some (Iter.fromList [3, 4]) := by
  refine ⟨?_, ?_, ?_⟩
  · simp [Iter.skipWhile, Iter.fromList, scanIdx_liftPred,
      drop_length_takeWhile]
  · intro x xs hx
    simp [Iter.skipWhile, Iter.fromList, scanIdx_liftPred,
      List.takeWhile_cons, hx]
  · decide

/-- C7, witness at a concrete input whose first element fails the
predicate: zero elements are skipped. -/
theorem skipWhile_witness :
    Iter.skipWhile (liftPred (fun n : Int => decide (n < 3)))
        (Iter.fromList [5])
      = Option.some (Iter.fromList [5]) :=
  (skipWhile_stops_at_first_failure (fun n : Int => decide (n < 3))
      []).2.1 5 [] (by decide)

/-- C8: `range(start, end)` collects to the consecutive integers
`start, start+1, ..., end-1` (`(end - start).toNat` of them, the i-th
being `start + i`); with a single argument the argument is the end and
the start is 0, so `range(0,5)` and `range(5)` both collect to
`[0,1,2,3,4]`. -/
theorem range_consecutive_integers (s e : Int) :
    (Iter.range s (Option.some e)).collect.length = (e - s).toNat
    ∧ (∀ i : Nat, i < (e - s).toNat →
        (Iter.range s (Option.some e)).collect[i]? = Option.some (s + i))
    ∧ (∀ a : Int, Iter.range a Option.none = Iter.range 0 (Option.some a))
    ∧ (Iter.range 0 (Option.some 5)).collect = [0, 1, 2, 3, 4]
    ∧ (Iter.range 5 Option.none).collect = [0, 1, 2, 3, 4] := by
  refine ⟨?_, ?_, fun _ => rfl, ?_, ?_⟩
  · simp only [Iter.range, Iter.collect, rangeItems, List.length_map,
      List.length_range]
  · intro i hi
    simp only [Iter.range, Iter.collect, rangeItems, List.getElem?_map,
      List.getElem?_range hi, Option.map_some', Int.ofNat_eq_natCast]
  · decide
  · decide

/-- C8, witness at a concrete in-range index. -/
theorem range_witness :
    (Iter.range 0 (Option.some 5)).collect[2]?
      = Option.some (0 + ((2 : Nat) : Int)) :=
  (range_consecutive_integers 0 5).2.1 2 (by decide)

/-- C9: every pipeline and terminal operation reads only the backing
list, never the cursor: run on a sequence whose cursor was advanced to
any position `i`, each of `map`, `filter`, `skip`, `take`, `collect`
(plain and mapped), `reduce`, `count` (plain and filtered), `any`, `all`
returns the same result as on a fresh sequence over the same backing
list with cursor 0. -/
theorem pipeline_ops_cursor_independent {α β : Type} (xs : List α)
    (i : Nat) (fn : α → β) (p : α → Bool) (f : β → α → β) (b : β)
    (n : Nat) :
    Iter.map fn ⟨xs, i⟩ = Iter.map fn ⟨xs, 0⟩
    ∧ Iter.filter p ⟨xs, i⟩ = Iter.filter p ⟨xs, 0⟩
    ∧ Iter.skip n ⟨xs, i⟩ = Iter.skip n ⟨xs, 0⟩
    ∧ Iter.take n ⟨xs, i⟩ = Iter.take n ⟨xs, 0⟩
    ∧ Iter.collect ⟨xs, i⟩ = Iter.collect ⟨xs, 0⟩
    ∧ Iter.collectMap fn ⟨xs, i⟩ = Iter.collectMap fn ⟨xs, 0⟩
    ∧ Iter.reduce f b ⟨xs, i⟩ = Iter.reduce f b ⟨xs, 0⟩
    ∧ Iter.countAll ⟨xs, i⟩ = Iter.countAll ⟨xs, 0⟩
    ∧ Iter.countP p ⟨xs, i⟩ = Iter.countP p ⟨xs, 0⟩
    ∧ Iter.any p ⟨xs, i⟩ = Iter.any p ⟨xs, 0⟩
    ∧ Iter.all p ⟨xs, i⟩ = Iter.all p ⟨xs, 0⟩ :=
  ⟨rfl, rfl, rfl, rfl, rfl, rfl, rfl, rfl, rfl, rfl, rfl⟩

end RustyJS
